import Mathlib

/-!
A shallow embedding of the `weather_data` repository (files `Weather.py`,
`WeatherPipeline.py`, `Writer.py`, `WriterFactory.py`) together with proofs
about the embedded operations.

Conventions of the embedding:
* Python dictionaries used as fetch payloads become association lists
  `List (String × Int)`; `str(d)` becomes `pyStrDict d`.
* Python exceptions become `Except String` results (the string is the
  exception message) or explicit outcome datatypes where the branch taken
  matters (for example the `except` clause of `WeatherData.__send_request`,
  which can itself raise `UnboundLocalError`).
* `os.getenv` becomes an environment function `String → Option String`.
* The network is a parameter: a `Transport` value says what the single
  outbound HTTP call of `__send_request` did.
* The DuckDB table `weather_location` (single `UNIQUE NOT NULL` column)
  becomes a `List String`; its native uniqueness constraint makes the INSERT
  fail exactly when the value is already present.
* The local filesystem touched by `LocalWriter.write` becomes a `FileSystem`
  record: a list of existing directories and an association list from paths
  to file contents (the most recent write is consed on and shadows older
  entries, so `List.lookup` sees the current content).
-/

/-- Python `str.lower()` (character-wise lowercasing; the flags of the
claims are ASCII). -/
def pyLower (s : String) : String := ⟨s.data.map Char.toLower⟩

/-- Python `str` of a dict value (ints only appear in the claims). -/
def pyStrDict (d : List (String × Int)) : String :=
  "\x7b" ++ String.intercalate ", "
    (d.map (fun kv => "\x27" ++ kv.1 ++ "\x27: " ++ toString kv.2)) ++ "\x7d"

/-- A fetch payload: the JSON document of the weather provider, as the
dictionary `response.json()` produced. -/
abbrev Payload := List (String × Int)

/-- `WeatherData` after construction: `API_KEY` passed the truthiness check,
`BASE_URL` is whatever `os.getenv` returned (possibly `None`). -/
structure WeatherData where
  API_KEY : String
  BASE_URL : Option String
deriving Repr, DecidableEq

/-- Python rendering of `self.BASE_URL` inside an f-string: `None` when the
environment variable was absent. -/
def pyShowOpt : Option String → String
  | none => "None"
  | some s => s

/-- `WeatherData.__init__` (`Weather.py` lines 9–21): reads
`WEATHER_API_KEY`, raises `ValueError` when it is falsy (absent or empty),
then reads `WEATHER_API_BASE_URL` with no check at all. -/
def WeatherData.init (env : String → Option String) : Except String WeatherData :=
  match env "WEATHER_API_KEY" with
  | none => .error "WEATHER_API_KEY not found in environment variables."
  | some k =>
      if k = "" then .error "WEATHER_API_KEY not found in environment variables."
      else .ok { API_KEY := k, BASE_URL := env "WEATHER_API_BASE_URL" }

/-- What the single `requests.get` call of `__send_request` did.
`noResponse`: the call raised (connection error, timeout) and no response
object was ever bound.  `response body status`: a response arrived with the
given HTTP status; `body = none` models a non-parseable body
(`response.json()` raises `requests.JSONDecodeError`, a
`RequestException`). -/
inductive Transport
  | noResponse
  | response (body : Option Payload) (status : Nat)
deriving Repr, DecidableEq

/-- Result of `WeatherData.__send_request`: either a normal return of
`(payload, statusCode)`, or the `except` branch itself crashed with
`UnboundLocalError` while evaluating `response.status_code`. -/
inductive SendOutcome
  | ok (payload : Payload) (status : Nat)
  | unboundLocalError
deriving Repr, DecidableEq

/-- The `except requests.RequestException` branch of `__send_request`
(`Weather.py` lines 100–102): it evaluates `response.status_code`.  The
argument is the status of the bound `response` local, or `none` when
`requests.get` raised before binding it. -/
def sendExceptBranch : Option Nat → SendOutcome
  | none => .unboundLocalError
  | some status => .ok [] status

/-- `WeatherData.__send_request` (`Weather.py` lines 81–102).
`requests.get` raising ⇒ `except` with `response` unbound;
`response.raise_for_status()` raises for every status ≥ 400 ⇒ `except` with
`response` bound; `response.json()` raising on a non-parseable body ⇒
`except` with `response` bound; otherwise return
`(response.json(), response.status_code)`. -/
def send_request (t : Transport) : SendOutcome :=
  match t with
  | .noResponse => sendExceptBranch none
  | .response body status =>
      if 400 ≤ status then sendExceptBranch (some status)
      else
        match body with
        | some p => .ok p status
        | none => sendExceptBranch (some status)

/-- `WeatherData.get_forecast_history` (`Weather.py` lines 23–39): builds the
history endpoint URL and delegates to `__send_request`. -/
def get_forecast_history (w : WeatherData) (t : Transport)
    (date location : String) : SendOutcome :=
  let _endpoint_url := pyShowOpt w.BASE_URL ++ "history.json?key=" ++ w.API_KEY
      ++ "&q=" ++ location ++ "&dt=" ++ date
  send_request t

/-- `WeatherData.get_forecast_future` up to (and including) its validation
(`Weather.py` lines 41–79): raises `ValueError` for `days < 1`; normalizes
`alerts` and checks it; then — faithfully to the source — normalizes
`alerts` **again** (not `air_quality_data`) and checks that, before building
the endpoint URL.  Returns the URL that would be requested. -/
def get_forecast_future (w : WeatherData) (location : String) (days : Int)
    (alerts air_quality_data : String) : Except String String :=
  if days < 1 then
    .error "Invalid value for \x27days\x27: must be greater than 0."
  else
    let alerts_normalized := pyLower alerts
    if ¬ (alerts_normalized = "yes" ∨ alerts_normalized = "no") then
      .error "Invalid value for \x27alerts\x27: must be \x27yes\x27 or \x27no\x27."
    else
      let air_quality_data_normalized := pyLower alerts
      if ¬ (air_quality_data_normalized = "yes" ∨ air_quality_data_normalized = "no") then
        .error "Invalid value for \x27air_quality_data\x27: must be \x27yes\x27 or \x27no\x27."
      else
        .ok (pyShowOpt w.BASE_URL ++ "forecast.json?key=" ++ w.API_KEY ++ "&q="
          ++ location ++ "&days=" ++ toString days ++ "&aqi=" ++ air_quality_data
          ++ "&alerts=" ++ alerts)

/-! ## `WriterFactory.py` and `Writer.py` -/

/-- A value that `get_writer` can return: a constructed `LocalWriter`, or —
faithfully to `WriterFactory.py` line 21 — a `ModuleNotFoundError`
**instance returned as a normal value**, not raised. -/
inductive WriterValue
  | localWriter
  | moduleNotFoundErrorInstance (msg : String)
deriving Repr, DecidableEq

/-- `get_writer` (`WriterFactory.py` lines 4–23): "local" constructs a
`LocalWriter`; "azure" **returns** (does not raise) a `ModuleNotFoundError`
instance; anything else raises `ValueError`. -/
def get_writer (writer_type : String) : Except String WriterValue :=
  if writer_type = "local" then .ok .localWriter
  else if writer_type = "azure" then
    .ok (.moduleNotFoundErrorInstance "AzureBlobWriter is not implemented yet.")
  else .error ("Unknown writer type: " ++ writer_type)

/-- The local filesystem as `LocalWriter.write` sees it: the set of existing
directories and the files (first match in the association list wins). -/
structure FileSystem where
  dirs : List String
  files : List (String × String)
deriving Repr, DecidableEq

/-- Split a path at every "/" (same contract as Python
`path.split("/")`), over the character list. -/
def splitSlashChars : List Char → List (List Char)
  | [] => [[]]
  | c :: cs =>
      match splitSlashChars cs with
      | [] => if c = '/' then [[], []] else [[c]]
      | g :: gs => if c = '/' then [] :: g :: gs else (c :: g) :: gs

/-- Split a path string at every "/". -/
def splitOnSlash (s : String) : List String :=
  (splitSlashChars s.data).map (fun l => String.mk l)

/-- `os.path.dirname`: everything before the last "/" (empty when the path
has no "/"). -/
def dirname (p : String) : String :=
  String.intercalate "/" (splitOnSlash p).dropLast

/-- The directory paths `os.makedirs(dir, exist_ok=True)` creates: `dir`
itself and every ancestor (the empty artifact of a leading "/" dropped). -/
def ancestorDirs (dir : String) : List String :=
  let parts := splitOnSlash dir
  ((List.range parts.length).map
    (fun i => String.intercalate "/" (parts.take (i + 1)))).filter (fun d => d ≠ "")

/-- `os.makedirs(dir, exist_ok=True)`. -/
def makedirs (fs : FileSystem) (dir : String) : FileSystem :=
  { fs with dirs := ancestorDirs dir ++ fs.dirs }

/-- `LocalWriter.write` (`Writer.py` lines 33–50): ensure the destination
directory exists, then `open(destination, "w")` — truncating any existing
file at that path — and write the data. -/
def LocalWriter.write (fs : FileSystem) (data destination : String) : FileSystem :=
  let fs1 := makedirs fs (dirname destination)
  { fs1 with files := (destination, data) :: fs1.files }

/-! ## `WeatherPipeline.py`: the location registry backed by DuckDB -/

/-- The DuckDB `INSERT` into `weather_location`, whose single column is
`UNIQUE NOT NULL`: the store itself rejects a duplicate value with a
constraint-violation `duckdb.DuckDBException`, atomically leaving the table
unchanged. -/
def dbInsertUnique (table : List String) (v : String) :
    Except String (List String) :=
  if v ∈ table then .error "Constraint Error: duplicate key" else .ok (table ++ [v])

/-- `WeatherPipeline.add_location` (`WeatherPipeline.py` lines 57–76): one
INSERT — the uniqueness check lives in the store, not the application — and
a `DuckDBException` is re-raised as a generic `Exception`. -/
def add_location (table : List String) (postcode : String) :
    Except String (List String) :=
  match dbInsertUnique table postcode with
  | .ok t => .ok t
  | .error e => .error ("Failed to add location " ++ postcode ++ ": " ++ e)

/-- `WeatherPipeline.remove_location` (`WeatherPipeline.py` lines 78–97):
`DELETE FROM weather_location WHERE postcode = ?` — removes every matching
row, succeeding also when nothing matches. -/
def remove_location (table : List String) (postcode : String) : List String :=
  table.filter (fun row => row ≠ postcode)

/-- `WeatherPipeline.get_locations` (`WeatherPipeline.py` lines 99–116):
`SELECT postcode FROM weather_location`, one value per row. -/
def get_locations (table : List String) : List String := table

/-! ## `WeatherPipeline.py`: fetch-and-write and the `__main__` run loop -/

/-- One call `writer.write(data, destination)` recorded by the pipeline. -/
structure WriteCall where
  data : String
  destination : String
deriving Repr, DecidableEq

/-- `WeatherPipeline.get_and_write_forecast_history`
(`WeatherPipeline.py` lines 118–141), with the fetch's
`(result, status_code)` pair supplied by the client: raises
`Exception(f"Failed to fetch data: ...")` whenever `status_code != 200`,
otherwise performs exactly one `writer.write(str(result), destination)`.
Returns the write calls performed and the exception message, if any. -/
def get_and_write_forecast_history (fetchResult : Payload × Nat)
    (destination : String) : List WriteCall × Option String :=
  let result := fetchResult.1
  let status_code := fetchResult.2
  if status_code ≠ 200 then
    ([], some ("Failed to fetch data: " ++ pyStrDict result))
  else
    ([⟨pyStrDict result, destination⟩], none)

/-- Replay recorded write calls against a `FileSystem` through
`LocalWriter.write`. -/
def applyWrites (fs : FileSystem) (ws : List WriteCall) : FileSystem :=
  ws.foldl (fun f w => LocalWriter.write f w.data w.destination) fs

/-- `get_and_write_forecast_history` with its writer instantiated to a
`LocalWriter` acting on a `FileSystem`: the resulting filesystem and the
exception message, if any. -/
def get_and_write_forecast_history_local (fetchResult : Payload × Nat)
    (fs : FileSystem) (destination : String) : FileSystem × Option String :=
  let r := get_and_write_forecast_history fetchResult destination
  (applyWrites fs r.1, r.2)

/-- The `__main__` loop of `WeatherPipeline.py` (lines 144–171): for each
location in order, call `get_and_write_forecast_history` with destination
`./output/<location>/<today>.json`.  The loop body is not wrapped in any
try/except, so the first raised exception propagates and ends the process:
later locations are never attempted.  Returns the locations attempted, all
write calls performed, and the uncaught exception message, if any. -/
def main_run (fetch : String → Payload × Nat) (today : String) :
    List String → List String × List WriteCall × Option String
  | [] => ([], [], none)
  | loc :: rest =>
      let dest := "./output/" ++ loc ++ "/" ++ today ++ ".json"
      match get_and_write_forecast_history (fetch loc) dest with
      | (writes, some e) => ([loc], writes, some e)
      | (writes, none) =>
          let (att, ws, err) := main_run fetch today rest
          (loc :: att, writes ++ ws, err)

/-- An environment that supplies the API key but no API base URL. -/
def envKeyOnly : String → Option String :=
  fun k => if k = "WEATHER_API_KEY" then some "secret" else none

/-- A fetch in which location "B" answers 500 and every other location
answers 200 with payload `{"t": 1}`. -/
def fetchFailB : String → Payload × Nat :=
  fun loc => if loc = "B" then ([], 500) else ([("t", 1)], 200)

/-! ## Helper lemmas -/

/-- Unfolding `main_run` over a head location whose fetch succeeded. -/
theorem main_run_cons_ok (fetch : String → Payload × Nat) (today a : String)
    (as : List String) (ha : (fetch a).2 = 200) :
    main_run fetch today (a :: as) =
      (a :: (main_run fetch today as).1,
       ⟨pyStrDict (fetch a).1, "./output/" ++ a ++ "/" ++ today ++ ".json"⟩
         :: (main_run fetch today as).2.1,
       (main_run fetch today as).2.2) := by
  simp [main_run, get_and_write_forecast_history, ha]

/-- Unfolding `main_run` over a head location whose fetch failed: the
exception propagates at once and the rest of the list is ignored. -/
theorem main_run_cons_fail (fetch : String → Payload × Nat) (today b : String)
    (rest : List String) (hb : (fetch b).2 ≠ 200) :
    main_run fetch today (b :: rest) =
      ([b], [], some ("Failed to fetch data: " ++ pyStrDict (fetch b).1)) := by
  simp [main_run, get_and_write_forecast_history, hb]

/-! ## Theorems for the claims -/

/-- C1 counterexample: a run over ["A", "B", "C"] in which B's fetch fails
(status 500) while A and C would succeed.  The orchestrator attempts only
["A", "B"]: location "C" — whose fetch would have returned 200 — is never
attempted, only A's file is written, and the only failure signal is B's
propagated exception.  This refutes the claim that every location is
attempted and a per-location aggregate is collected. -/
theorem C1_remaining_locations_not_attempted :
    (main_run fetchFailB "2024-01-01" ["A", "B", "C"]).1 = ["A", "B"]
    ∧ "C" ∉ (main_run fetchFailB "2024-01-01" ["A", "B", "C"]).1
    ∧ (fetchFailB "C").2 = 200
    ∧ main_run fetchFailB "2024-01-01" ["A", "B", "C"]
        = (["A", "B"],
           [⟨"\x7b\x27t\x27: 1\x7d", "./output/A/2024-01-01.json"⟩],
           some "Failed to fetch data: \x7b\x7d") :=
  ⟨rfl, by decide, rfl, rfl⟩

/-- C1 (amended): the `__main__` loop does not collect per-location
outcomes.  When every location's fetch returns 200, all locations are
attempted and each is written.  Otherwise the run aborts at the first
location whose fetch status is not 200: the locations before it are fetched
and written, the failing location's exception propagates immediately as the
run's failure, and the remaining locations are never attempted. -/
theorem C1_run_aborts_at_first_failure (fetch : String → Payload × Nat)
    (today : String) :
    (∀ locs, (∀ l ∈ locs, (fetch l).2 = 200) →
      main_run fetch today locs
        = (locs,
           locs.map (fun l => ⟨pyStrDict (fetch l).1,
             "./output/" ++ l ++ "/" ++ today ++ ".json"⟩),
           none))
    ∧ (∀ pre bad post, (∀ l ∈ pre, (fetch l).2 = 200) → (fetch bad).2 ≠ 200 →
      main_run fetch today (pre ++ bad :: post)
        = (pre ++ [bad],
           pre.map (fun l => ⟨pyStrDict (fetch l).1,
             "./output/" ++ l ++ "/" ++ today ++ ".json"⟩),
           some ("Failed to fetch data: " ++ pyStrDict (fetch bad).1))) := by
  constructor
  · intro locs h
    induction locs with
    | nil => rfl
    | cons a as ih =>
        have ha : (fetch a).2 = 200 := h a (List.mem_cons_self a as)
        have hrest := ih (fun l hl => h l (List.mem_cons_of_mem a hl))
        rw [main_run_cons_ok fetch today a as ha, hrest]
        simp
  · intro pre bad post hpre hbad
    induction pre with
    | nil => simpa using main_run_cons_fail fetch today bad post hbad
    | cons a as ih =>
        have ha : (fetch a).2 = 200 := hpre a (List.mem_cons_self a as)
        have hrest := ih (fun l hl => hpre l (List.mem_cons_of_mem a hl))
        rw [List.cons_append, main_run_cons_ok fetch today a _ ha, hrest]
        simp

/-- C1 witness: the amended theorem applied to the concrete
["A"] ++ "B" :: ["C"] run with B failing. -/
theorem C1_run_aborts_at_first_failure_witness :
    main_run fetchFailB "2024-01-01" (["A"] ++ "B" :: ["C"])
      = (["A"] ++ ["B"],
         [⟨"\x7b\x27t\x27: 1\x7d", "./output/A/2024-01-01.json"⟩],
         some "Failed to fetch data: \x7b\x7d") := by
  have h := (C1_run_aborts_at_first_failure fetchFailB "2024-01-01").2
      ["A"] "B" ["C"] (by decide) (by decide)
  simpa using h

/-- C2: the code does not validate the air-quality flag against its own
input.  With `days = 1` and `alerts = "yes"` but
`air_quality_data = "banana"` — not one of the two recognized values —
`get_forecast_future` raises no `ValueError` at all: it builds and returns
the forecast request URL (with `aqi=banana`), proceeding to the network
call.  The claim (and the function's own docstring) requires an
`InvalidArgument` failure before any network call in exactly this
situation. -/
theorem C2_air_quality_flag_not_validated :
    get_forecast_future ⟨"k", some "https://api/"⟩ "London" 1 "yes" "banana" =
      .ok "https://api/forecast.json?key=k&q=London&days=1&aqi=banana&alerts=yes" := by
  rfl

/-- C3 counterexample: status code 201 lies inside [200, 299], yet
`get_and_write_forecast_history` raises (`Failed to fetch data`) and
performs zero write calls — refuting the claim that every status inside
[200, 299] leads to exactly one `sink.write` call. -/
theorem C3_status_201_fails :
    (200 ≤ 201 ∧ 201 ≤ 299)
    ∧ get_and_write_forecast_history ([("temp_c", 21)], 201)
        "/tmp/out/10001/2024-01-01.json"
      = ([], some "Failed to fetch data: \x7b\x27temp_c\x27: 21\x7d") :=
  ⟨⟨by decide, by decide⟩, rfl⟩

/-- C3 (amended): the pipeline's success test is `statusCode == 200`, not
membership in [200, 299].  Whenever the status is not exactly 200 the call
fails with the fetch-failure exception and performs zero write calls — in
particular for every status outside [200, 299], and for the fetch result
`({}, 500)`; when the status is exactly 200 the payload is serialized with
`str` and `writer.write` is called exactly once. -/
theorem C3_write_iff_status_200 (result : Payload) (status : Nat)
    (dest : String) :
    (status ≠ 200 →
      get_and_write_forecast_history (result, status) dest
        = ([], some ("Failed to fetch data: " ++ pyStrDict result)))
    ∧ (status = 200 →
      get_and_write_forecast_history (result, status) dest
        = ([⟨pyStrDict result, dest⟩], none))
    ∧ get_and_write_forecast_history ([], 500) dest
        = ([], some "Failed to fetch data: \x7b\x7d") := by
  refine ⟨fun h => ?_, fun h => ?_, ?_⟩
  · simp [get_and_write_forecast_history, h]
  · simp [get_and_write_forecast_history, h]
  · rfl

/-- C3 witness: `({}, 500)` yields the fetch failure with zero writes, and
`({"temp_c": 21}, 200)` yields exactly one write of the serialized
payload. -/
theorem C3_write_iff_status_200_witness :
    get_and_write_forecast_history ([], 500) "/tmp/out/10001/2024-01-01.json"
      = ([], some "Failed to fetch data: \x7b\x7d")
    ∧ get_and_write_forecast_history ([("temp_c", 21)], 200)
        "/tmp/out/10001/2024-01-01.json"
      = ([⟨"\x7b\x27temp_c\x27: 21\x7d", "/tmp/out/10001/2024-01-01.json"⟩], none) :=
  ⟨(C3_write_iff_status_200 [] 500 "/tmp/out/10001/2024-01-01.json").2.2,
   (C3_write_iff_status_200 [("temp_c", 21)] 200 "/tmp/out/10001/2024-01-01.json").2.1 rfl⟩

/-- C4: on a transport failure in which no response was received at all
(`requests.get` raised before binding `response`), the error branch of
`__send_request` itself crashes: evaluating `response.status_code` raises
`UnboundLocalError`, which escapes the call boundary.  The code does not
return the `({}, 0)` result the claim requires. -/
theorem C4_error_branch_crashes_without_response :
    send_request Transport.noResponse = SendOutcome.unboundLocalError
    ∧ send_request Transport.noResponse ≠ SendOutcome.ok [] 0 :=
  ⟨rfl, by decide⟩

/-- C5: for the recognized-but-unimplemented sink type "azure",
`get_writer` does not raise: it returns a `ModuleNotFoundError` instance as
a normal value — a successful `Except.ok` return, not an error — while the
unrecognized type "bogus" raises `ValueError`.  So the factory does not
route all failures through one raising channel as the claim requires. -/
theorem C5_azure_returns_error_object_as_value :
    get_writer "azure" =
      Except.ok (.moduleNotFoundErrorInstance "AzureBlobWriter is not implemented yet.")
    ∧ get_writer "bogus" = Except.error "Unknown writer type: bogus" :=
  ⟨rfl, rfl⟩

/-- C6: when `add_location` succeeds on location L, the resulting table
lists L exactly once and equals the old listing with L appended; a second
add of L is rejected by the store's uniqueness constraint and re-raised as
the duplicate failure, producing no new table state. -/
theorem C6_add_unique_and_duplicate_fails (table table1 : List String)
    (L : String) (h : add_location table L = Except.ok table1) :
    (get_locations table1).count L = 1
    ∧ add_location table1 L
        = Except.error ("Failed to add location " ++ L ++ ": "
            ++ "Constraint Error: duplicate key")
    ∧ table1 = get_locations table ++ [L] := by
  have hm : L ∉ table := by
    intro hm
    simp [add_location, dbInsertUnique, hm] at h
  have ht : table1 = table ++ [L] := by
    simp [add_location, dbInsertUnique, hm] at h
    exact h.symm
  subst ht
  refine ⟨?_, ?_, rfl⟩
  · simp [get_locations, List.count_append, List.count_eq_zero.mpr hm]
  · simp [add_location, dbInsertUnique]

/-- C6 witness: adding "SW1A" to the empty registry succeeds with a
single-occurrence listing, and the duplicate add fails. -/
theorem C6_add_unique_and_duplicate_fails_witness :
    (get_locations ["SW1A"]).count "SW1A" = 1
    ∧ add_location ["SW1A"] "SW1A"
        = Except.error "Failed to add location SW1A: Constraint Error: duplicate key" := by
  have h := C6_add_unique_and_duplicate_fails [] ["SW1A"] "SW1A" (by rfl)
  exact ⟨h.1, h.2.1⟩

/-- C7: a well-formed HTTP error response (status 4xx or 5xx) never raises
past `__send_request`: `raise_for_status`'s exception is caught and the call
returns a normal `(payload, statusCode)` result carrying that non-2xx
status code (with the payload emptied), never the crashing outcome. -/
theorem C7_http_error_is_normal_fetch_result (w : WeatherData)
    (date location : String) (body : Payload) (status : Nat)
    (h4 : 400 ≤ status) (_h5 : status ≤ 599) :
    get_forecast_history w (.response (some body) status) date location
      = SendOutcome.ok [] status := by
  simp only [get_forecast_history, send_request, sendExceptBranch]
  rw [if_pos h4]

/-- C7 witness: a 404 with a parseable error body is returned as a normal
`([], 404)` fetch result. -/
theorem C7_http_error_witness :
    get_forecast_history ⟨"k", some "https://api/"⟩
      (.response (some [("code", 1006)]) 404) "2024-01-01" "10001"
      = SendOutcome.ok [] 404 :=
  C7_http_error_is_normal_fetch_result ⟨"k", some "https://api/"⟩
    "2024-01-01" "10001" [("code", 1006)] 404 (by decide) (by decide)

/-- C8: `remove_location` is idempotent — removing twice equals removing
once; removing an absent location succeeds and leaves the listing
unchanged; the removed location is gone afterwards; and on a
duplicate-free table (the store's uniqueness invariant) removing a present
location shrinks the table by exactly one row. -/
theorem C8_remove_is_idempotent (table : List String) (L : String) :
    remove_location (remove_location table L) L = remove_location table L
    ∧ (L ∉ table → remove_location table L = table)
    ∧ L ∉ remove_location table L
    ∧ (table.Nodup → L ∈ table →
        (remove_location table L).length + 1 = table.length) := by
  refine ⟨?_, fun h => ?_, ?_, fun hnd hm => ?_⟩
  · exact List.filter_eq_self.mpr (fun b hb => (List.mem_filter.mp hb).2)
  · exact List.filter_eq_self.mpr (fun b hb => by
      simp only [ne_eq, decide_eq_true_eq]
      rintro rfl
      exact h hb)
  · simp [remove_location]
  · induction table with
    | nil => cases hm
    | cons a as ih =>
        rw [List.nodup_cons] at hnd
        rcases List.mem_cons.mp hm with rfl | hmem
        · simp [remove_location, List.filter_cons]
          exact fun b hb hq => hnd.1 (hq ▸ hb)
        · have hne : a ≠ L := fun hq => hnd.1 (hq ▸ hmem)
          have hi := ih hnd.2 hmem
          simp only [remove_location, List.filter_cons] at hi ⊢
          rw [if_pos (by simp [hne])]
          simp only [List.length_cons]
          omega

/-- C8 witness: removing an absent "Z" from ["A", "B"] is a no-op, and
removing the present "B" shrinks the table by one. -/
theorem C8_remove_is_idempotent_witness :
    remove_location ["A", "B"] "Z" = ["A", "B"]
    ∧ (remove_location ["A", "B"] "B").length + 1
        = (["A", "B"] : List String).length := by
  have h1 := C8_remove_is_idempotent ["A", "B"] "Z"
  have h2 := C8_remove_is_idempotent ["A", "B"] "B"
  exact ⟨h1.2.1 (by decide), h2.2.2.2 (by decide) (by decide)⟩

/-- C9: a successful fetch-and-write through a `LocalWriter` raises nothing,
creates the destination's parent directories (all ancestors of
`dirname destination`) while keeping the existing ones, and leaves the
serialized payload as the content at the destination — also when a file
already existed there (the association-list lookup sees the new entry, i.e.
the write overwrote).  On the claim's concrete input — payload
`{"temp_c": 21}`, status 200, root "/tmp/out", location "10001", date
"2024-01-01", with an old file already present — the file at
`/tmp/out/10001/2024-01-01.json` holds exactly the serialized payload and
the parent directories exist. -/
theorem C9_local_write_creates_dirs_and_overwrites (fs : FileSystem)
    (payload : Payload) (dest : String) :
    ((get_and_write_forecast_history_local (payload, 200) fs dest).2 = none)
    ∧ ((get_and_write_forecast_history_local (payload, 200) fs dest).1.files.lookup dest
        = some (pyStrDict payload))
    ∧ (∀ d ∈ ancestorDirs (dirname dest),
        d ∈ (get_and_write_forecast_history_local (payload, 200) fs dest).1.dirs)
    ∧ (∀ d ∈ fs.dirs,
        d ∈ (get_and_write_forecast_history_local (payload, 200) fs dest).1.dirs)
    ∧ ((get_and_write_forecast_history_local ([("temp_c", 21)], 200)
          ⟨[], [("/tmp/out/10001/2024-01-01.json", "old")]⟩
          ("/tmp/out" ++ "/" ++ "10001" ++ "/" ++ "2024-01-01" ++ ".json")).1.files.lookup
          "/tmp/out/10001/2024-01-01.json" = some "\x7b\x27temp_c\x27: 21\x7d")
    ∧ ("/tmp/out/10001" ∈ (get_and_write_forecast_history_local ([("temp_c", 21)], 200)
          ⟨[], [("/tmp/out/10001/2024-01-01.json", "old")]⟩
          ("/tmp/out" ++ "/" ++ "10001" ++ "/" ++ "2024-01-01" ++ ".json")).1.dirs)
    ∧ ("/tmp/out" ∈ (get_and_write_forecast_history_local ([("temp_c", 21)], 200)
          ⟨[], [("/tmp/out/10001/2024-01-01.json", "old")]⟩
          ("/tmp/out" ++ "/" ++ "10001" ++ "/" ++ "2024-01-01" ++ ".json")).1.dirs) := by
  refine ⟨rfl, ?_, ?_, ?_, by rfl, by decide, by decide⟩
  · simp [get_and_write_forecast_history_local, get_and_write_forecast_history,
      applyWrites, LocalWriter.write, List.lookup]
  · intro d hd
    simp [get_and_write_forecast_history_local, get_and_write_forecast_history,
      applyWrites, LocalWriter.write, makedirs]
    exact Or.inl hd
  · intro d hd
    simp [get_and_write_forecast_history_local, get_and_write_forecast_history,
      applyWrites, LocalWriter.write, makedirs]
    exact Or.inr hd

/-- C9 witness: the general theorem applied to the claim's concrete
scenario — old file present, payload `{"temp_c": 21}`, destination
`/tmp/out/10001/2024-01-01.json` — yields the overwritten content and the
created parent directory. -/
theorem C9_local_write_witness :
    ((get_and_write_forecast_history_local ([("temp_c", 21)], 200)
        ⟨[], [("/tmp/out/10001/2024-01-01.json", "old")]⟩
        "/tmp/out/10001/2024-01-01.json").1.files.lookup
        "/tmp/out/10001/2024-01-01.json" = some "\x7b\x27temp_c\x27: 21\x7d")
    ∧ ("/tmp/out/10001" ∈ (get_and_write_forecast_history_local ([("temp_c", 21)], 200)
        ⟨[], [("/tmp/out/10001/2024-01-01.json", "old")]⟩
        "/tmp/out/10001/2024-01-01.json").1.dirs) := by
  have h := C9_local_write_creates_dirs_and_overwrites
      ⟨[], [("/tmp/out/10001/2024-01-01.json", "old")]⟩
      [("temp_c", 21)] "/tmp/out/10001/2024-01-01.json"
  exact ⟨h.2.1, h.2.2.1 "/tmp/out/10001" (by decide)⟩

/-- C10 counterexample: in an environment where `WEATHER_API_KEY` is set but
`WEATHER_API_BASE_URL` is absent, `WeatherData.__init__` succeeds —
construction does not fail for a missing API base URL, contradicting the
claim; `BASE_URL` is silently `None`. -/
theorem C10_missing_base_url_accepted :
    WeatherData.init envKeyOnly =
      Except.ok { API_KEY := "secret", BASE_URL := none }
    ∧ envKeyOnly "WEATHER_API_BASE_URL" = none :=
  ⟨rfl, rfl⟩

/-- C10 (amended): construction fails with `ValueError` for every
environment in which the API key is absent or empty; when the key is a
non-empty string, construction succeeds regardless of whether the base URL
is present — a missing base URL is stored as `None` and does not abort
startup. -/
theorem C10_only_api_key_checked (env : String → Option String) :
    (env "WEATHER_API_KEY" = none →
      WeatherData.init env
        = Except.error "WEATHER_API_KEY not found in environment variables.")
    ∧ (env "WEATHER_API_KEY" = some "" →
      WeatherData.init env
        = Except.error "WEATHER_API_KEY not found in environment variables.")
    ∧ (∀ k, env "WEATHER_API_KEY" = some k → k ≠ "" →
      WeatherData.init env
        = Except.ok { API_KEY := k, BASE_URL := env "WEATHER_API_BASE_URL" }) := by
  refine ⟨fun h => ?_, fun h => ?_, fun k hk hne => ?_⟩
  · simp [WeatherData.init, h]
  · simp [WeatherData.init, h]
  · simp [WeatherData.init, hk, hne]

/-- C10 witness: an environment with no variables at all fails construction
with the `ValueError`, and one with only the key succeeds with
`BASE_URL = none`. -/
theorem C10_only_api_key_checked_witness :
    WeatherData.init (fun _ => none)
      = Except.error "WEATHER_API_KEY not found in environment variables."
    ∧ WeatherData.init envKeyOnly
      = Except.ok { API_KEY := "secret", BASE_URL := none } :=
  ⟨(C10_only_api_key_checked (fun _ => none)).1 rfl,
   (C10_only_api_key_checked envKeyOnly).2.2 "secret" rfl (by decide)⟩
